import Mathlib

/-!
Verification of the storyboard-generation logic of `generate_storyboard_gemini.py`.

The Python module assembles a structured scene specification (`spec_json`) from
static preset catalogs, builds a per-layout shot timeline with two-decimal
rounding, compiles a prompt embedding the serialized specification, and splits
the model reply at a fixed literal separator.

Embedding conventions:
* Python floats (durations, timestamps) are embedded as exact rationals `ℚ`.
  `round(x, 2)` is embedded as `round2` below; Python rounds ties to even on
  binary floats while `round2` rounds ties up, but no statement proved here
  touches a tie, and the 0.01-tolerance claims are insensitive to the choice.
* Python strings are embedded as `String` where only equality of keys matters
  (catalog lookups) and as `List Char` (the sequence of code points, exactly
  Python's view of `str`) where splitting / ordering / containment matters.
* A Python function that can raise `KeyError(key)` is embedded as
  `Except String _` whose error value is the missing key.
-/

namespace Storyboard

/-- Embedding of Python `round(x, 2)`: round to two decimal places. -/
def round2 (x : ℚ) : ℚ := ((round (x * 100) : ℤ) : ℚ) / 100

theorem round2_mono {x y : ℚ} (h : x ≤ y) : round2 x ≤ round2 y := by
  unfold round2
  have hr : round (x * 100) ≤ round (y * 100) := by
    rw [round_eq, round_eq]
    exact Int.floor_le_floor (by linarith)
  have hc : ((round (x * 100) : ℤ) : ℚ) ≤ ((round (y * 100) : ℤ) : ℚ) :=
    Int.cast_le.mpr hr
  linarith

theorem round2_zero : round2 0 = 0 := by
  unfold round2
  norm_num

theorem round2_nonneg {x : ℚ} (h : 0 ≤ x) : 0 ≤ round2 x := by
  calc (0 : ℚ) = round2 0 := round2_zero.symm
    _ ≤ round2 x := round2_mono h

theorem abs_round2_sub (x : ℚ) : |round2 x - x| ≤ 1 / 100 := by
  have h := abs_sub_round (x * 100)
  unfold round2
  rw [abs_sub_comm]
  have hx : x - ((round (x * 100) : ℤ) : ℚ) / 100
      = (x * 100 - ((round (x * 100) : ℤ) : ℚ)) / 100 := by ring
  rw [hx, abs_div]
  have h100 : |(100 : ℚ)| = 100 := by norm_num
  rw [h100]
  rw [div_le_div_iff₀ (by norm_num) (by norm_num)]
  calc |x * 100 - ((round (x * 100) : ℤ) : ℚ)| * 100 ≤ (1 / 2) * 100 := by
        have habs : |x * 100 - ((round (x * 100) : ℤ) : ℚ)| ≤ 1 / 2 := h
        linarith
    _ ≤ 1 * 100 := by norm_num

/-- One entry of the `shots` list built by `build_camera_shots`. -/
structure Shot where
  shot_id : String
  time_range : ℚ × ℚ
  brief : String
  priority : String
deriving DecidableEq

/-- Embedding of `build_camera_shots(template_name, duration_sec)`. -/
def build_camera_shots (template_name : String) (duration_sec : ℚ) : List Shot :=
  if template_name = "jab_cross_lowkick" then
    -- t1 = round(duration_sec * 0.3, 2); t2 = round(duration_sec * 0.8, 2)
    let t1 := round2 (duration_sec * (3 / 10))
    let t2 := round2 (duration_sec * (4 / 5))
    let t3 := round2 duration_sec
    [⟨"S01", (0, t1),
      "tight medium handheld shot framing both fighters from the waist up as she throws the jab and cross, camera slightly below eye level",
      "show_face_and_gloves_impact"⟩,
     ⟨"S02", (t1, t2),
      "low tracking shot near the floor that follows the arc of her right shin slamming into his thigh, emphasizing muscle vibration and his leg buckling",
      "show_kick_power_and_leg_reaction"⟩,
     ⟨"S03", (t2, t3),
      "medium shot pulling back slightly to show him stumbling sideways, catching his balance and revealing more of the environment",
      "show_overall_reaction_and_space"⟩]
  else if template_name = "wide_focus" then
    -- t1 = round(duration_sec * 0.25, 2); t2 = round(duration_sec * 0.7, 2)
    let t1 := round2 (duration_sec * (1 / 4))
    let t2 := round2 (duration_sec * (7 / 10))
    let t3 := round2 duration_sec
    [⟨"S01", (0, t1),
      "wide establishing shot showing the whole space and both fighters circling each other",
      "show_environment_and_positions"⟩,
     ⟨"S02", (t1, t2),
      "medium shot focusing on the main fighter as she lands the key strikes",
      "show_main_actions"⟩,
     ⟨"S03", (t2, t3),
      "wide or medium-wide shot showing the aftermath and how both fighters are positioned after the exchange",
      "show_aftermath"⟩]
  else if template_name = "street_brawl_3p" then
    -- t1 = round(duration_sec * 0.3, 2); t2 = round(duration_sec * 0.75, 2)
    let t1 := round2 (duration_sec * (3 / 10))
    let t2 := round2 (duration_sec * (3 / 4))
    let t3 := round2 duration_sec
    [⟨"S01", (0, t1),
      "wide shot in a dimly lit parking lot at night, showing the main fighter facing two attackers, wet pavement reflecting neon lights",
      "show_three_characters_and_environment"⟩,
     ⟨"S02", (t1, t2),
      "chaotic handheld medium shot that stays close as she elbows the attacker on the left and front-kicks the one on the right, camera reacting to each hit",
      "show_elbow_and_front_kick_impacts"⟩,
     ⟨"S03", (t2, t3),
      "medium-wide shot as she grabs one attacker and shoves him hard into a parked car, the car shakes and the other attacker recovers in the background",
      "show_shove_and_environment_reaction"⟩]
  else
    [⟨"S01", (0, round2 duration_sec),
      "single continuous medium shot showing the whole exchange",
      "show_whole_action"⟩]

/-- Lexicographic order on code-point sequences: the order Python uses to
compare `str` values such as shot identifiers. -/
def strLt : List Char → List Char → Bool
  | [], [] => false
  | [], _ :: _ => true
  | _ :: _, [] => false
  | a :: as, b :: bs =>
    if a.toNat < b.toNat then true
    else if b.toNat < a.toNat then false
    else strLt as bs

/-- The shot list partitions `[0, round2 d]` into contiguous, non-overlapping,
ordered segments: non-empty, first start is `0`, each end equals the next
start, every segment has `start ≤ end`, and the last end is `d` rounded to
two decimals (hence within `0.01` of `d`). -/
def contiguous_partition (shots : List Shot) (d : ℚ) : Prop :=
  shots ≠ [] ∧
  shots.head?.map (fun s => s.time_range.1) = some 0 ∧
  List.Chain' (fun a b => a.time_range.2 = b.time_range.1) shots ∧
  (∀ s ∈ shots, s.time_range.1 ≤ s.time_range.2) ∧
  shots.getLast?.map (fun s => s.time_range.2) = some (round2 d) ∧
  |round2 d - d| ≤ 1 / 100

/-- Shot identifiers are pairwise distinct and strictly increasing in the
same order as the shots' time ranges. -/
def idsOrdered (shots : List Shot) : Prop :=
  (shots.map (fun s => s.shot_id)).Nodup ∧
  List.Chain' (fun a b =>
    strLt a.shot_id.data b.shot_id.data = true ∧ a.time_range.1 ≤ b.time_range.1) shots

theorem build_camera_shots_wf (template_name : String) (d : ℚ) (hd : 0 < d) :
    contiguous_partition (build_camera_shots template_name d) d ∧
      idsOrdered (build_camera_shots template_name d) := by
  have hd0 : (0 : ℚ) ≤ d := le_of_lt hd
  have habs := abs_round2_sub d
  by_cases h1 : template_name = "jab_cross_lowkick"
  · have m0 : (0 : ℚ) ≤ round2 (d * (3 / 10)) :=
      round2_nonneg (by linarith)
    have m1 : round2 (d * (3 / 10)) ≤ round2 (d * (4 / 5)) :=
      round2_mono (by linarith)
    have m2 : round2 (d * (4 / 5)) ≤ round2 d :=
      round2_mono (by linarith)
    subst h1
    refine ⟨⟨by simp [build_camera_shots], ?_, ?_, ?_, ?_, habs⟩, ?_, ?_⟩ <;>
      simp [build_camera_shots, contiguous_partition, idsOrdered,
        List.chain'_cons, strLt] <;>
      first
        | exact ⟨m0, m1, m2⟩
        | exact ⟨m0, m1⟩
  · by_cases h2 : template_name = "wide_focus"
    · have m0 : (0 : ℚ) ≤ round2 (d * (4 : ℚ)⁻¹) :=
        round2_nonneg (by linarith)
      have m1 : round2 (d * (4 : ℚ)⁻¹) ≤ round2 (d * (7 / 10)) :=
        round2_mono (by linarith)
      have m2 : round2 (d * (7 / 10)) ≤ round2 d :=
        round2_mono (by linarith)
      subst h2
      refine ⟨⟨by simp [build_camera_shots], ?_, ?_, ?_, ?_, habs⟩, ?_, ?_⟩ <;>
        simp [build_camera_shots, contiguous_partition, idsOrdered,
          List.chain'_cons, strLt] <;>
        first
          | exact ⟨m0, m1, m2⟩
          | exact ⟨m0, m1⟩
    · by_cases h3 : template_name = "street_brawl_3p"
      · have m0 : (0 : ℚ) ≤ round2 (d * (3 / 10)) :=
          round2_nonneg (by linarith)
        have m1 : round2 (d * (3 / 10)) ≤ round2 (d * (3 / 4)) :=
          round2_mono (by linarith)
        have m2 : round2 (d * (3 / 4)) ≤ round2 d :=
          round2_mono (by linarith)
        subst h3
        refine ⟨⟨by simp [build_camera_shots], ?_, ?_, ?_, ?_, habs⟩, ?_, ?_⟩ <;>
          simp [build_camera_shots, contiguous_partition, idsOrdered,
            List.chain'_cons, strLt] <;>
          first
            | exact ⟨m0, m1, m2⟩
            | exact ⟨m0, m1⟩
      · have m0 : (0 : ℚ) ≤ round2 d := round2_nonneg hd0
        refine ⟨⟨?_, ?_, ?_, ?_, ?_, habs⟩, ?_, ?_⟩ <;>
          first
            | (simp [build_camera_shots, contiguous_partition, idsOrdered, h1, h2, h3,
                List.chain'_cons]; exact m0)
            | simp [build_camera_shots, contiguous_partition, idsOrdered, h1, h2, h3,
                List.chain'_cons]

/-- Claim C1: for every supported named camera layout ("jab_cross_lowkick",
"wide_focus", "street_brawl_3p") and every positive duration `d`,
`build_camera_shots` returns an ordered, non-empty list of shots whose time
ranges are contiguous with no gaps, non-overlapping, start at `0`, and whose
final end equals `d` rounded to two decimal places (within `0.01`). -/
theorem buildCameraShots_partition (template_name : String) (d : ℚ)
    (_hmem : template_name ∈ ["jab_cross_lowkick", "wide_focus", "street_brawl_3p"])
    (hd : 0 < d) :
    contiguous_partition (build_camera_shots template_name d) d :=
  (build_camera_shots_wf template_name d hd).1

theorem buildCameraShots_partition_witness :
    "jab_cross_lowkick" ∈ ["jab_cross_lowkick", "wide_focus", "street_brawl_3p"] ∧
    (0 : ℚ) < 2 ∧
    contiguous_partition (build_camera_shots "jab_cross_lowkick" 2) 2 :=
  ⟨by decide, two_pos, buildCameraShots_partition "jab_cross_lowkick" 2 (by decide) two_pos⟩

/-- Claim C2: each supported layout splits the duration at fixed proportional
breakpoints — 30% and 80% for "jab_cross_lowkick", 25% and 70% for
"wide_focus", 30% and 75% for "street_brawl_3p" — and in particular for
duration 1.8 (= 9/5) the "jab_cross_lowkick" layout yields exactly three
shots with time ranges [0, 0.54], [0.54, 1.44], [1.44, 1.8]
(0.54 = 27/50, 1.44 = 36/25). -/
theorem buildCameraShots_breakpoints :
    (∀ d : ℚ, (build_camera_shots "jab_cross_lowkick" d).map (fun s => s.time_range) =
      [(0, round2 (d * (3 / 10))), (round2 (d * (3 / 10)), round2 (d * (4 / 5))),
       (round2 (d * (4 / 5)), round2 d)]) ∧
    (∀ d : ℚ, (build_camera_shots "wide_focus" d).map (fun s => s.time_range) =
      [(0, round2 (d * (1 / 4))), (round2 (d * (1 / 4)), round2 (d * (7 / 10))),
       (round2 (d * (7 / 10)), round2 d)]) ∧
    (∀ d : ℚ, (build_camera_shots "street_brawl_3p" d).map (fun s => s.time_range) =
      [(0, round2 (d * (3 / 10))), (round2 (d * (3 / 10)), round2 (d * (3 / 4))),
       (round2 (d * (3 / 4)), round2 d)]) ∧
    (build_camera_shots "jab_cross_lowkick" (9 / 5)).map (fun s => s.time_range) =
      [(0, 27 / 50), (27 / 50, 36 / 25), (36 / 25, 9 / 5)] := by
  refine ⟨fun d => ?_, fun d => ?_, fun d => ?_, ?_⟩
  · simp [build_camera_shots]
  · simp [build_camera_shots]
  · simp [build_camera_shots]
  · with_unfolding_all rfl

/-- Claim C7: for every layout name that is not one of the supported
templates and every duration, `build_camera_shots` returns exactly one shot
spanning `[0, round2 d]` with the generic continuous-shot brief. -/
theorem buildCameraShots_unknown_single (template_name : String) (d : ℚ)
    (h : template_name ∉ ["jab_cross_lowkick", "wide_focus", "street_brawl_3p"]) :
    build_camera_shots template_name d =
      [⟨"S01", (0, round2 d),
        "single continuous medium shot showing the whole exchange",
        "show_whole_action"⟩] := by
  simp only [List.mem_cons, List.not_mem_nil, or_false, not_or] at h
  obtain ⟨h1, h2, h3⟩ := h
  simp [build_camera_shots, h1, h2, h3]

theorem buildCameraShots_unknown_single_witness :
    ("dolly_zoom" : String) ∉ ["jab_cross_lowkick", "wide_focus", "street_brawl_3p"] ∧
    build_camera_shots "dolly_zoom" 2 =
      [⟨"S01", (0, round2 2),
        "single continuous medium shot showing the whole exchange",
        "show_whole_action"⟩] :=
  ⟨by decide, buildCameraShots_unknown_single "dolly_zoom" 2 (by decide)⟩

/-- One entry of the `CHARACTERS` preset catalog. -/
structure Character where
  name : String
  role : String
  nationality_style : String
  visual_brief : String
  motion_personality : String
deriving DecidableEq

/-- One entry of the `STYLE_PRESETS` catalog. -/
structure StylePreset where
  label : String
  style_tags : List String
  description : String
deriving DecidableEq

/-- One entry of the `COMBO_PRESETS` catalog. -/
structure ComboPreset where
  label : String
  description : String
  default_duration : ℚ
deriving DecidableEq

/-- One entry of the `CAMERA_PRESETS` catalog. -/
structure CameraPreset where
  label : String
  shots_template : String
  description : String
deriving DecidableEq

/-- The `CHARACTERS` catalog, in source order.  Adjacent Python string
literals are concatenated exactly as the interpreter would. -/
def CHARACTERS : List (String × Character) :=
  [("female_cn_sanda",
    ⟨"女主 - 中国散打", "female_pro_fighter", "Chinese modern",
     "22-year-old athletic Chinese woman with a long black ponytail, wearing a black sports bra, tight black training pants and black MMA gloves, light sweat on her skin",
     "sharp_and_calm"⟩),
   ("male_us_mma",
    ⟨"男对手 - 美国 MMA", "male_fighter", "US MMA",
     "stocky male fighter in his late 20s with short dark hair and slight beard stubble, wearing red fight shorts and 4oz MMA gloves",
     "aggressive_but_tiring"⟩),
   ("male_hk_80s_thug",
    ⟨"男对手 - 港片小混混", "male_thug", "Hong Kong 1980s",
     "lean Hong Kong street thug in a wrinkled white shirt, loose dark trousers and worn leather shoes, slightly messy hair",
     "wild_and_showoff"⟩),
   ("female_wuxia_swordswoman",
    ⟨"女主 - 武侠女侠", "female_swordswoman", "Chinese ancient wuxia",
     "elegant young swordswoman in flowing light-colored robes, long black hair tied partly up, sword sheath on her back",
     "graceful_but_deadly"⟩),
   ("male_cn_street_punk",
    ⟨"男角色 - 现代街头混混", "male_street_punk", "Chinese modern street",
     "young Chinese street punk in a dark hoodie, ripped jeans and sneakers, short spiky hair, a bit cocky",
     "reckless_and_aggressive"⟩),
   ("male_cn_street_big",
    ⟨"男角色 - 现代街头壮汉", "male_street_heavy", "Chinese modern street",
     "broad-shouldered Chinese man in a bomber jacket, dark pants and boots, short hair, heavy build",
     "slow_but_powerful"⟩)]

/-- The `STYLE_PRESETS` catalog, in source order. -/
def STYLE_PRESETS : List (String × StylePreset) :=
  [("cn_modern_sanda_gym",
    ⟨"中国现代 - 散打馆", ["cn_modern_sanda", "gym_interior", "cinematic"],
     "现代中国散打训练馆，冷色荧光灯、沙袋、擂台、镜面墙。"⟩),
   ("hk_80s_factory",
    ⟨"香港 80s - 工厂/仓库", ["hk_80s_kungfu", "warehouse", "stylized"],
     "80年代港片风格，老工厂或仓库，木箱、铁链、灰尘光束。"⟩),
   ("cn_wuxia_courtyard",
    ⟨"古代武侠 - 山门/院落", ["cn_wuxia", "ancient_courtyard", "fantasy_cinematic"],
     "古代武林门派山门或庭院，石板地、木柱、飘动的布幡和树叶。"⟩),
   ("us_mma_cage",
    ⟨"美国 UFC 笼斗", ["us_mma", "cage_arena", "sports_cinematic"],
     "MMA 笼子擂台，强烈顶光，周围观众在黑暗中吼叫。"⟩),
   ("cn_modern_street_night",
    ⟨"中国现代 - 夜晚街头停车场", ["cn_modern_street", "parking_lot_night", "gritty_cinematic"],
     "城市夜晚空旷停车场，路灯、霓虹反射在湿漉漉地面，适合街头群殴。"⟩)]

/-- The `COMBO_PRESETS` catalog, in source order.  Default durations
1.8 = 9/5, 1.2 = 6/5, 2.8 = 14/5, 2.5 = 5/2. -/
def COMBO_PRESETS : List (String × ComboPreset) :=
  [("combo_jab_cross_lowkick",
    ⟨"直拳 + 重拳 + 低扫",
     "a fast left jab to the face, a heavy right cross, then a powerful right low kick to the lead thigh",
     9 / 5⟩),
   ("combo_block_cross",
    ⟨"格挡 + 右重拳反击",
     "she blocks an incoming strike, then fires a heavy right cross to the opponent\x27s head",
     6 / 5⟩),
   ("combo_clinch_knee_push",
    ⟨"抱颈 + 膝撞 + 推开",
     "she secures a clinch, drives a hard knee into the body, then shoves the opponent away",
     9 / 5⟩),
   ("combo_wuxia_qinggong_sword",
    ⟨"武侠轻功：闪身 + 拔剑 + 腾空一击",
     "she uses light-footwork to vanish from the opponent\x27s line of attack, appears at a new angle, draws her sword in one fluid motion, then launches into a brief airborne slash before landing lightly on a stone railing",
     14 / 5⟩),
   ("combo_street_brawl_3p",
    ⟨"街头群殴：一打二组合",
     "the main fighter faces two attackers at once: she elbows the attacker on her left, then front-kicks the one on her right, before grabbing one of them and shoving him hard into a parked car",
     5 / 2⟩)]

/-- The `CAMERA_PRESETS` catalog, in source order. -/
def CAMERA_PRESETS : List (String × CameraPreset) :=
  [("dynamic_close",
    ⟨"动态近景格斗风", "jab_cross_lowkick", "手持近景 + 低机位跟腿 + 中景收尾。"⟩),
   ("wide_reveal",
    ⟨"宽幅环境展示风", "wide_focus", "开头环境大全景，中景打斗，最后拉远。"⟩),
   ("street_brawl_dynamic",
    ⟨"街头群殴 - 混乱动态运镜", "street_brawl_3p",
     "略带手持抖动的大景 + 中景切换，突出一打二的混乱感和被撞车辆等环境反馈。"⟩)]

/-- One character record inside the `characters` block of the specification. -/
structure CharacterEntry where
  id : String
  role : String
  nationality_style : String
  visual_brief : String
  motion_personality : String
deriving DecidableEq

/-- The `clip_config` block.  The second field is `aspect_ratio` in the
source JSON. -/
structure ClipConfig where
  duration_sec : ℚ
  aspect_tag : String
  style_tags : List String
  energy_level : String
  violence_level : String
deriving DecidableEq

/-- The `characters` block: `extras` is `none` when the optional key
`"extras"` is absent from the Python dict. -/
structure CharactersBlock where
  main : CharacterEntry
  opponent : CharacterEntry
  extras : Option (List CharacterEntry)
deriving DecidableEq

/-- The `combo_plan` block. -/
structure ComboPlan where
  combo_id : String
  high_level_description : String
  tempo : String
  intensity : String
deriving DecidableEq

/-- The `camera_plan` block. -/
structure CameraPlan where
  overall_style : String
  shots : List Shot
deriving DecidableEq

/-- The `extra_controls` block. -/
structure ExtraControls where
  include_micro_expressions : Bool
  include_breath_sweat_fatigue : Bool
  include_environment_reaction : Bool
  include_camera_details : Bool
  blood : String
  audio_hint : String
  safety_constraints : String
deriving DecidableEq

/-- The `output_prefs` block. -/
structure OutputPrefs where
  need_english_video_prompt : Bool
  need_chinese_timeline : Bool
  timeline_step : ℚ
deriving DecidableEq

/-- The complete `spec_json` object assembled by `build_spec_json`. -/
structure SceneSpec where
  clip_config : ClipConfig
  characters : CharactersBlock
  combo_plan : ComboPlan
  camera_plan : CameraPlan
  extra_controls : ExtraControls
  output_prefs : OutputPrefs
deriving DecidableEq

/-- Embedding of Python dict indexing `tbl[key]`: produces the value, or
raises `KeyError(key)` (modelled as `Except.error key`) when absent. -/
def dictGet {α : Type} (tbl : List (String × α)) (key : String) : Except String α :=
  match List.lookup key tbl with
  | some v => .ok v
  | none => .error key

/-- Embedding of `build_spec_json`.  Arguments appear in source order; the
five catalog lookups happen in source order, so the first missing key is the
one reported. -/
def build_spec_json (duration_sec : ℚ)
    (style_preset_key main_char_key opp_char_key extra_char_key combo_key : String)
    (energy_level violence_level camera_preset_key : String)
    (include_micro include_breath include_env include_camera_detail : Bool)
    (blood_level audio_hint : String) : Except String SceneSpec :=
  (dictGet STYLE_PRESETS style_preset_key).bind fun style_preset =>
  (dictGet CHARACTERS main_char_key).bind fun main_char =>
  (dictGet CHARACTERS opp_char_key).bind fun opp_char =>
  (dictGet COMBO_PRESETS combo_key).bind fun combo =>
  (dictGet CAMERA_PRESETS camera_preset_key).bind fun camera_preset =>
  let style_tags := style_preset.style_tags
  let shots := build_camera_shots camera_preset.shots_template duration_sec
  -- `if extra_char_key != "none" and extra_char_key in CHARACTERS:` adds the
  -- "extras" entry; otherwise the key is simply left out of the dict.
  let extras : Option (List CharacterEntry) :=
    if extra_char_key ≠ "none" then
      match List.lookup extra_char_key CHARACTERS with
      | some extra_char =>
        some [⟨"extra_fighter_1", extra_char.role, extra_char.nationality_style,
               extra_char.visual_brief, extra_char.motion_personality⟩]
      | none => none
    else none
  let characters_block : CharactersBlock :=
    ⟨⟨"main_fighter", main_char.role, main_char.nationality_style,
       main_char.visual_brief, main_char.motion_personality⟩,
     ⟨"opponent_fighter", opp_char.role, opp_char.nationality_style,
       opp_char.visual_brief, opp_char.motion_personality⟩,
     extras⟩
  Except.ok
    ⟨⟨duration_sec, "9:16", style_tags, energy_level, violence_level⟩,
     characters_block,
     ⟨combo_key, combo.description, "explosive_then_brief_pause", "high"⟩,
     ⟨camera_preset.label, shots⟩,
     ⟨include_micro, include_breath, include_env, include_camera_detail,
       blood_level, audio_hint,
       "no graphic gore, follow platform rules, respect the blood setting."⟩,
     ⟨true, true, 1 / 10⟩⟩

/-- Claim C5: `build_spec_json` succeeds exactly when the style, main
character, opponent character, combo and camera-preset keys are all present
in their catalogs; any absent key makes the lookup raise `KeyError`
(the `Except.error` case), which propagates to the caller. -/
theorem buildSpecJson_key_lookup (duration_sec : ℚ)
    (style_preset_key main_char_key opp_char_key extra_char_key combo_key : String)
    (energy_level violence_level camera_preset_key : String)
    (include_micro include_breath include_env include_camera_detail : Bool)
    (blood_level audio_hint : String) :
    (build_spec_json duration_sec style_preset_key main_char_key opp_char_key
        extra_char_key combo_key energy_level violence_level camera_preset_key
        include_micro include_breath include_env include_camera_detail
        blood_level audio_hint).isOk = true ↔
      ((List.lookup style_preset_key STYLE_PRESETS).isSome = true ∧
       (List.lookup main_char_key CHARACTERS).isSome = true ∧
       (List.lookup opp_char_key CHARACTERS).isSome = true ∧
       (List.lookup combo_key COMBO_PRESETS).isSome = true ∧
       (List.lookup camera_preset_key CAMERA_PRESETS).isSome = true) := by
  cases h1 : List.lookup style_preset_key STYLE_PRESETS <;>
  cases h2 : List.lookup main_char_key CHARACTERS <;>
  cases h3 : List.lookup opp_char_key CHARACTERS <;>
  cases h4 : List.lookup combo_key COMBO_PRESETS <;>
  cases h5 : List.lookup camera_preset_key CAMERA_PRESETS <;>
  simp [build_spec_json, dictGet, h1, h2, h3, h4, h5, Except.bind, Except.isOk,
    Except.toBool]

/-- Claim C3: whenever `build_spec_json` returns a specification, the
`visual_brief` of `characters.main` and of `characters.opponent` are exactly
the `visual_brief` fields of the `CHARACTERS` catalog entries for the
supplied main and opponent keys. -/
theorem buildSpecJson_visual_brief_roundtrip (duration_sec : ℚ)
    (style_preset_key main_char_key opp_char_key extra_char_key combo_key : String)
    (energy_level violence_level camera_preset_key : String)
    (include_micro include_breath include_env include_camera_detail : Bool)
    (blood_level audio_hint : String) (mc oc : Character)
    (hm : List.lookup main_char_key CHARACTERS = some mc)
    (ho : List.lookup opp_char_key CHARACTERS = some oc)
    (hs : (List.lookup style_preset_key STYLE_PRESETS).isSome = true)
    (hc : (List.lookup combo_key COMBO_PRESETS).isSome = true)
    (hcam : (List.lookup camera_preset_key CAMERA_PRESETS).isSome = true) :
    (build_spec_json duration_sec style_preset_key main_char_key opp_char_key
        extra_char_key combo_key energy_level violence_level camera_preset_key
        include_micro include_breath include_env include_camera_detail
        blood_level audio_hint).map
      (fun s => (s.characters.main.visual_brief, s.characters.opponent.visual_brief)) =
      .ok (mc.visual_brief, oc.visual_brief) := by
  obtain ⟨sp, hsp⟩ := Option.isSome_iff_exists.mp hs
  obtain ⟨cb, hcb⟩ := Option.isSome_iff_exists.mp hc
  obtain ⟨cam, hcam2⟩ := Option.isSome_iff_exists.mp hcam
  simp [build_spec_json, dictGet, hsp, hm, ho, hcb, hcam2, Except.bind, Except.map]

theorem buildSpecJson_visual_brief_roundtrip_witness :
    List.lookup "female_cn_sanda" CHARACTERS ≠ none ∧
    List.lookup "male_us_mma" CHARACTERS ≠ none ∧
    (build_spec_json (9 / 5) "cn_modern_sanda_gym" "female_cn_sanda" "male_us_mma"
        "none" "combo_jab_cross_lowkick" "high" "moderate" "dynamic_close"
        true true true true "none" "short sharp impact sounds").map
      (fun s => (s.characters.main.visual_brief, s.characters.opponent.visual_brief)) =
      .ok ("22-year-old athletic Chinese woman with a long black ponytail, wearing a black sports bra, tight black training pants and black MMA gloves, light sweat on her skin",
           "stocky male fighter in his late 20s with short dark hair and slight beard stubble, wearing red fight shorts and 4oz MMA gloves") :=
  ⟨by decide, by decide,
    buildSpecJson_visual_brief_roundtrip (9 / 5) "cn_modern_sanda_gym"
      "female_cn_sanda" "male_us_mma" "none" "combo_jab_cross_lowkick" "high"
      "moderate" "dynamic_close" true true true true "none"
      "short sharp impact sounds" _ _ rfl rfl rfl rfl rfl⟩

/-- The invariant claimed of every assembled specification: the shot
sequence is non-empty, its final end time is within two-decimal rounding of
`clip_config.duration_sec`, shot identifiers are pairwise distinct, and the
identifier order matches the order of the time ranges. -/
def specShotInvariant (s : SceneSpec) : Prop :=
  s.camera_plan.shots ≠ [] ∧
  (∀ e : ℚ, (s.camera_plan.shots.getLast?.map fun sh => sh.time_range.2) = some e →
      |e - s.clip_config.duration_sec| ≤ 1 / 100) ∧
  (s.camera_plan.shots.map fun sh => sh.shot_id).Nodup ∧
  List.Chain' (fun a b => strLt a.shot_id.data b.shot_id.data = true ∧
      a.time_range.1 ≤ b.time_range.1) s.camera_plan.shots

theorem specShotInvariant_of_shots (tmpl : String) (d : ℚ) (hd : 0 < d)
    (s : SceneSpec)
    (hshots : s.camera_plan.shots = build_camera_shots tmpl d)
    (hdur : s.clip_config.duration_sec = d) : specShotInvariant s := by
  obtain ⟨⟨hne, _hh, _hchain, _hmono, hlast, habs⟩, hnodup, hidchain⟩ :=
    build_camera_shots_wf tmpl d hd
  unfold specShotInvariant
  rw [hshots, hdur]
  refine ⟨hne, ?_, hnodup, hidchain⟩
  intro e he
  rw [hlast] at he
  obtain rfl : round2 d = e := Option.some.inj he
  exact habs

/-- Claim C6: for every specification produced by `build_spec_json` (with a
positive duration), the camera plan's shots satisfy `specShotInvariant`:
final end time equals `clip_config.duration_sec` within two-decimal
rounding, shot identifiers are pairwise distinct, and identifier order
matches time order. -/
theorem buildSpecJson_shot_invariant (duration_sec : ℚ)
    (style_preset_key main_char_key opp_char_key extra_char_key combo_key : String)
    (energy_level violence_level camera_preset_key : String)
    (include_micro include_breath include_env include_camera_detail : Bool)
    (blood_level audio_hint : String) (s : SceneSpec)
    (hd : 0 < duration_sec)
    (hok : build_spec_json duration_sec style_preset_key main_char_key opp_char_key
        extra_char_key combo_key energy_level violence_level camera_preset_key
        include_micro include_breath include_env include_camera_detail
        blood_level audio_hint = .ok s) : specShotInvariant s := by
  cases h1 : List.lookup style_preset_key STYLE_PRESETS with
  | none => simp [build_spec_json, dictGet, h1, Except.bind] at hok
  | some sp =>
  cases h2 : List.lookup main_char_key CHARACTERS with
  | none => simp [build_spec_json, dictGet, h1, h2, Except.bind] at hok
  | some mc =>
  cases h3 : List.lookup opp_char_key CHARACTERS with
  | none => simp [build_spec_json, dictGet, h1, h2, h3, Except.bind] at hok
  | some oc =>
  cases h4 : List.lookup combo_key COMBO_PRESETS with
  | none => simp [build_spec_json, dictGet, h1, h2, h3, h4, Except.bind] at hok
  | some cb =>
  cases h5 : List.lookup camera_preset_key CAMERA_PRESETS with
  | none => simp [build_spec_json, dictGet, h1, h2, h3, h4, h5, Except.bind] at hok
  | some cam =>
  simp only [build_spec_json, dictGet, h1, h2, h3, h4, h5, Except.bind,
    Except.ok.injEq] at hok
  exact specShotInvariant_of_shots cam.shots_template duration_sec hd s
    (by rw [← hok]) (by rw [← hok])

/-- A placeholder specification used only to extract the value out of an
`Except` in concrete instantiations. -/
def emptySpec : SceneSpec :=
  ⟨⟨0, "", [], "", ""⟩,
   ⟨⟨"", "", "", "", ""⟩, ⟨"", "", "", "", ""⟩, none⟩,
   ⟨"", "", "", ""⟩, ⟨"", []⟩,
   ⟨false, false, false, false, "", "", ""⟩,
   ⟨false, false, 0⟩⟩

theorem buildSpecJson_shot_invariant_witness :
    (0 : ℚ) < 2 ∧
    build_spec_json 2 "cn_modern_sanda_gym" "female_cn_sanda" "male_us_mma" "none"
      "combo_block_cross" "high" "moderate" "dynamic_close" true true true true
      "none" "impact sounds" =
      .ok ((build_spec_json 2 "cn_modern_sanda_gym" "female_cn_sanda" "male_us_mma"
        "none" "combo_block_cross" "high" "moderate" "dynamic_close" true true true
        true "none" "impact sounds").toOption.getD emptySpec) ∧
    specShotInvariant ((build_spec_json 2 "cn_modern_sanda_gym" "female_cn_sanda"
      "male_us_mma" "none" "combo_block_cross" "high" "moderate" "dynamic_close"
      true true true true "none" "impact sounds").toOption.getD emptySpec) :=
  ⟨two_pos, by with_unfolding_all rfl,
    buildSpecJson_shot_invariant 2 "cn_modern_sanda_gym" "female_cn_sanda"
      "male_us_mma" "none" "combo_block_cross" "high" "moderate" "dynamic_close"
      true true true true "none" "impact sounds" _ two_pos
      (by with_unfolding_all rfl)⟩

/-- Claim C10: the extra-character key is exempt from the KeyError policy —
when `extra_char_key` is `"none"` or absent from `CHARACTERS`,
`build_spec_json` completes without error (given the five required keys) and
the `extras` field is simply omitted (`none`). -/
theorem buildSpecJson_extras_optional (duration_sec : ℚ)
    (style_preset_key main_char_key opp_char_key extra_char_key combo_key : String)
    (energy_level violence_level camera_preset_key : String)
    (include_micro include_breath include_env include_camera_detail : Bool)
    (blood_level audio_hint : String)
    (hs : (List.lookup style_preset_key STYLE_PRESETS).isSome = true)
    (hm : (List.lookup main_char_key CHARACTERS).isSome = true)
    (ho : (List.lookup opp_char_key CHARACTERS).isSome = true)
    (hc : (List.lookup combo_key COMBO_PRESETS).isSome = true)
    (hcam : (List.lookup camera_preset_key CAMERA_PRESETS).isSome = true)
    (hextra : extra_char_key = "none" ∨ List.lookup extra_char_key CHARACTERS = none) :
    (build_spec_json duration_sec style_preset_key main_char_key opp_char_key
        extra_char_key combo_key energy_level violence_level camera_preset_key
        include_micro include_breath include_env include_camera_detail
        blood_level audio_hint).map (fun s => s.characters.extras) = .ok none := by
  obtain ⟨sp, h1⟩ := Option.isSome_iff_exists.mp hs
  obtain ⟨mc, h2⟩ := Option.isSome_iff_exists.mp hm
  obtain ⟨oc, h3⟩ := Option.isSome_iff_exists.mp ho
  obtain ⟨cb, h4⟩ := Option.isSome_iff_exists.mp hc
  obtain ⟨cam, h5⟩ := Option.isSome_iff_exists.mp hcam
  rcases hextra with he | he
  · subst he
    simp [build_spec_json, dictGet, h1, h2, h3, h4, h5, Except.bind, Except.map]
  · by_cases hne : extra_char_key = "none"
    · subst hne
      simp [build_spec_json, dictGet, h1, h2, h3, h4, h5, Except.bind, Except.map]
    · simp [build_spec_json, dictGet, h1, h2, h3, h4, h5, he, hne, Except.bind,
        Except.map]

theorem buildSpecJson_extras_optional_witness :
    List.lookup "sasquatch" CHARACTERS = none ∧
    (build_spec_json 2 "cn_modern_sanda_gym" "female_cn_sanda" "male_us_mma"
        "sasquatch" "combo_block_cross" "high" "moderate" "dynamic_close"
        true true true true "none" "impact sounds").map
      (fun s => s.characters.extras) = .ok none :=
  ⟨rfl,
    buildSpecJson_extras_optional 2 "cn_modern_sanda_gym" "female_cn_sanda"
      "male_us_mma" "sasquatch" "combo_block_cross" "high" "moderate"
      "dynamic_close" true true true true "none" "impact sounds"
      rfl rfl rfl rfl rfl (Or.inr rfl)⟩

/-- The `SYSTEM_PROMPT` constant: the Python source concatenates adjacent
string literals, mirrored here with `++` line by line.  Apostrophes are
written with the `\x27` escape. -/
def SYSTEM_PROMPT : String :=
  "You are a professional action film storyboard artist and AI video prompt writer.\n"
  ++ "\n"
  ++ "Goal:\n"
  ++ "- Use models like Sora / Veo / Runway to generate a 9:16 vertical action clip.\n"
  ++ "\n"
  ++ "You will receive a JSON object named spec_json with:\n"
  ++ "- clip_config: duration, aspect ratio, global style tags\n"
  ++ "- characters: main character, opponent, and optional extras (e.g., 3-person street brawl)\n"
  ++ "- combo_plan: a brief description of the martial arts combo (DO NOT change the order of moves)\n"
  ++ "- camera_plan: shot and camera intentions (time ranges and priorities)\n"
  ++ "- extra_controls: flags for micro expressions, environment reaction, blood level, safety, etc.\n"
  ++ "- output_prefs: which outputs are requested\n"
  ++ "\n"
  ++ "Your tasks:\n"
  ++ "1) Based on spec_json, write ONE English video prompt for an AI video model.\n"
  ++ "   - Target models like Sora / Veo / Runway.\n"
  ++ "   - Must include scene and world, character appearance and clothing, continuous action, physical reactions,\n"
  ++ "     camera language for each shot, and reasonable environment reaction respecting extra_controls.\n"
  ++ "   - Be concrete and precise. Avoid empty adjectives like \x27awesome, cool, epic\x27.\n"
  ++ "   - Obey safety_constraints. For example, if blood = \x27none\x27, do NOT describe visible blood or gore.\n"
  ++ "\n"
  ++ "2) Then, write a Chinese timeline storyboard (中文时间轴分镜脚本):\n"
  ++ "   - For each shot in camera_plan, output a block like:\n"
  ++ "     【S01 | 0.0-0.5 秒】\\n画面内容：...\\n人物动作：...\\n被打反应：...\\n机位与运镜：...\\n环境与细节：...\n"
  ++ "   - Cover every shot from camera_plan, you may slightly refine details.\n"
  ++ "   - If extras exist (e.g., third fighter in a street brawl), clarify who is doing what.\n"
  ++ "   - Keep continuity: same people, clothes, and damage state should stay consistent.\n"
  ++ "\n"
  ++ "3) Output format:\n"
  ++ "   - First, output the English video prompt (one or more paragraphs).\n"
  ++ "   - Then a blank line.\n"
  ++ "   - Then output a line: \x27—— 中文时间轴分镜 ——\x27.\n"
  ++ "   - Then output the Chinese storyboard.\n"
  ++ "   - Do NOT output JSON and do NOT explain your reasoning.\n"

/-- The prompt string assembled inside `call_gemini_with_spec`.  Its input is
`spec_str = json.dumps(spec, ensure_ascii=False, indent=2)`; the network call
made with the prompt is external I/O outside this embedding. -/
def call_gemini_prompt (spec_str : String) : String :=
  SYSTEM_PROMPT
  ++ "\n\n"
  ++ "下面是本次视频片段的结构化规格说明 spec_json：\n\n"
  ++ "```json\n"
  ++ spec_str
  ++ "\n```"
  ++ "\n\n请严格按照上述 System 说明，先输出英文视频提示词，再输出中文时间轴分镜脚本。"

/-- Splits at the first occurrence of `sep`: returns the part before and the
part after, or `none` when `sep` does not occur.  This is Python's
`text.split(sep, 1)` restricted to the two-piece result. -/
def splitFirst (sep : List Char) : List Char → Option (List Char × List Char)
  | [] => if sep.isPrefixOf ([] : List Char) then some ([], []) else none
  | c :: rest =>
    if sep.isPrefixOf (c :: rest) then some ([], (c :: rest).drop sep.length)
    else
      match splitFirst sep rest with
      | some (a, b) => some (c :: a, b)
      | none => none

theorem splitFirst_eq_some (sep : List Char) :
    ∀ (t a b : List Char), splitFirst sep t = some (a, b) → t = a ++ sep ++ b := by
  intro t
  induction t with
  | nil =>
    intro a b h
    by_cases hp : sep.isPrefixOf ([] : List Char)
    · have hsep : sep = [] := List.prefix_nil.mp (List.isPrefixOf_iff_prefix.mp hp)
      simp [splitFirst, hp] at h
      obtain ⟨rfl, rfl⟩ := h
      simp [hsep]
    · simp [splitFirst, hp] at h
  | cons c rest ih =>
    intro a b h
    by_cases hp : sep.isPrefixOf (c :: rest)
    · simp [splitFirst, hp] at h
      obtain ⟨rfl, rfl⟩ := h
      obtain ⟨u, hu⟩ := List.isPrefixOf_iff_prefix.mp hp
      have hdrop : (c :: rest).drop sep.length = u := by
        rw [← hu, List.drop_left]
      rw [hdrop]
      simp [← hu]
    · cases hr : splitFirst sep rest with
      | none => simp [splitFirst, hp, hr] at h
      | some p =>
        obtain ⟨a0, b0⟩ := p
        simp [splitFirst, hp, hr] at h
        obtain ⟨rfl, rfl⟩ := h
        have := ih a0 b0 hr
        simp [this]

theorem splitFirst_eq_none (sep : List Char) :
    ∀ (t : List Char), splitFirst sep t = none → ∀ a b, t ≠ a ++ sep ++ b := by
  intro t
  induction t with
  | nil =>
    intro h a b heq
    have h1 : a ++ sep = [] ∧ b = [] := List.append_eq_nil.mp heq.symm
    have h2 : a = [] ∧ sep = [] := List.append_eq_nil.mp h1.1
    have hp : sep.isPrefixOf ([] : List Char) = true := by
      simp [h2.2, List.isPrefixOf]
    simp [splitFirst, hp] at h
  | cons c rest ih =>
    intro h a b heq
    by_cases hp : sep.isPrefixOf (c :: rest)
    · simp [splitFirst, hp] at h
    · cases hr : splitFirst sep rest with
      | some p => simp [splitFirst, hp, hr] at h
      | none =>
        cases a with
        | nil =>
          have : sep <+: c :: rest := ⟨b, by simpa using heq.symm⟩
          exact hp (List.isPrefixOf_iff_prefix.mpr this)
        | cons x xs =>
          injection heq with _hcx hrest
          exact ih hr xs b hrest

theorem splitFirst_min (sep : List Char) :
    ∀ (t a b : List Char), splitFirst sep t = some (a, b) →
      ∀ a' b', t = a' ++ sep ++ b' → a.length ≤ a'.length := by
  intro t
  induction t with
  | nil =>
    intro a b h a' b' _
    by_cases hp : sep.isPrefixOf ([] : List Char)
    · simp [splitFirst, hp] at h
      obtain ⟨rfl, rfl⟩ := h
      simp
    · simp [splitFirst, hp] at h
  | cons c rest ih =>
    intro a b h a' b' heq
    by_cases hp : sep.isPrefixOf (c :: rest)
    · simp [splitFirst, hp] at h
      obtain ⟨rfl, rfl⟩ := h
      simp
    · cases hr : splitFirst sep rest with
      | none => simp [splitFirst, hp, hr] at h
      | some p =>
        obtain ⟨a0, b0⟩ := p
        simp [splitFirst, hp, hr] at h
        obtain ⟨rfl, rfl⟩ := h
        cases a' with
        | nil =>
          exfalso
          have : sep <+: c :: rest := ⟨b', by simpa using heq.symm⟩
          exact hp (List.isPrefixOf_iff_prefix.mpr this)
        | cons x xs =>
          injection heq with _hcx hrest
          simpa using Nat.succ_le_succ (ih a0 b0 hr xs b' hrest)

/-- The fixed literal separator `"—— 中文时间轴分镜 ——"` used by the result
block to split the reply. -/
def SEPARATOR : List Char := "—— 中文时间轴分镜 ——".data

/-- Embedding of the result-block split:
`en_part, zh_part = text.split(sep, 1)` when the separator occurs, otherwise
`en_part, zh_part = text, ""`. -/
def markerSplit (text : List Char) : List Char × List Char :=
  match splitFirst SEPARATOR text with
  | some (en_part, zh_part) => (en_part, zh_part)
  | none => (text, [])

/-- Embedding of Python `str.strip()` (ASCII whitespace). -/
def pyStrip (s : List Char) : List Char :=
  ((s.dropWhile Char.isWhitespace).reverse.dropWhile Char.isWhitespace).reverse

/-- The two sections as the result block displays them:
`en_part.strip()` and `zh_part.strip()`. -/
def displayedParts (text : List Char) : List Char × List Char :=
  (pyStrip (markerSplit text).1, pyStrip (markerSplit text).2)

/-- Claim C4: for every reply text containing the literal separator, the
split happens at the first occurrence, giving a before-segment and an
after-segment, displayed trimmed of surrounding whitespace; for every text
not containing the separator, the entire text is the first segment and the
second segment is empty. -/
theorem markerSplit_spec (t : List Char) :
    ((∃ a b, t = a ++ SEPARATOR ++ b) →
      ∃ a b, t = a ++ SEPARATOR ++ b ∧
        (∀ a' b', t = a' ++ SEPARATOR ++ b' → a.length ≤ a'.length) ∧
        markerSplit t = (a, b) ∧
        displayedParts t = (pyStrip a, pyStrip b)) ∧
    ((∀ a b, t ≠ a ++ SEPARATOR ++ b) → markerSplit t = (t, [])) := by
  constructor
  · rintro ⟨a, b, rfl⟩
    cases hs : splitFirst SEPARATOR (a ++ SEPARATOR ++ b) with
    | none => exact absurd rfl (splitFirst_eq_none SEPARATOR _ hs a b)
    | some p =>
      obtain ⟨a0, b0⟩ := p
      have hms : markerSplit (a ++ SEPARATOR ++ b) = (a0, b0) := by
        unfold markerSplit
        rw [hs]
      exact ⟨a0, b0, splitFirst_eq_some SEPARATOR _ a0 b0 hs,
        fun a' b' h => splitFirst_min SEPARATOR _ a0 b0 hs a' b' h,
        hms, by unfold displayedParts; rw [hms]⟩
  · intro h
    cases hs : splitFirst SEPARATOR t with
    | some p =>
      obtain ⟨a0, b0⟩ := p
      exact absurd (splitFirst_eq_some SEPARATOR t a0 b0 hs) (h a0 b0)
    | none => simp [markerSplit, hs]

theorem markerSplit_spec_witness :
    displayedParts ("A\n\n—— 中文时间轴分镜 ——\nB".data) = ("A".data, "B".data) := by
  have _h := (markerSplit_spec ("A\n\n—— 中文时间轴分镜 ——\nB".data)).1
    ⟨"A\n\n".data, "\nB".data, rfl⟩
  decide

theorem data_append (a b : String) : (a ++ b).data = a.data ++ b.data := rfl

/-- The content-safety sentence of the system prompt that forbids visible
blood or gore when the blood flag is "none". -/
def BLOOD_RULE : String := "if blood = \x27none\x27, do NOT describe visible blood or gore"

theorem contains_of_splitFirst {sep t : List Char}
    (h : (splitFirst sep t).isSome = true) : ∃ p q, t = p ++ sep ++ q := by
  cases hs : splitFirst sep t with
  | none => rw [hs] at h; simp at h
  | some pr =>
    obtain ⟨p, q⟩ := pr
    exact ⟨p, q, splitFirst_eq_some sep t p q hs⟩

theorem contains_append_right {sub s : List Char} (h : ∃ p q, s = p ++ sub ++ q)
    (t : List Char) : ∃ p q, s ++ t = p ++ sub ++ q := by
  obtain ⟨p, q, rfl⟩ := h
  exact ⟨p, q ++ t, by simp [List.append_assoc]⟩

theorem contains_append_left {sub t : List Char} (h : ∃ p q, t = p ++ sub ++ q)
    (s : List Char) : ∃ p q, s ++ t = p ++ sub ++ q := by
  obtain ⟨p, q, rfl⟩ := h
  exact ⟨s ++ p, q, by simp [List.append_assoc]⟩

/-- Everything of the compiled prompt before the serialized specification. -/
def prompt_before_spec : String :=
  SYSTEM_PROMPT ++ "\n\n"
  ++ "下面是本次视频片段的结构化规格说明 spec_json：\n\n"
  ++ "```json\n"

/-- Everything of the compiled prompt after the serialized specification. -/
def prompt_after_spec : String :=
  "\n```" ++ "\n\n请严格按照上述 System 说明，先输出英文视频提示词，再输出中文时间轴分镜脚本。"

theorem call_gemini_prompt_eq (s : String) :
    call_gemini_prompt s = prompt_before_spec ++ s ++ prompt_after_spec := by
  simp [call_gemini_prompt, prompt_before_spec, prompt_after_spec,
    String.append_assoc]

/-- The lines of `SYSTEM_PROMPT` before the content-safety line. -/
def PROMPT_PART_A : String :=
  "You are a professional action film storyboard artist and AI video prompt writer.\n"
  ++ "\n"
  ++ "Goal:\n"
  ++ "- Use models like Sora / Veo / Runway to generate a 9:16 vertical action clip.\n"
  ++ "\n"
  ++ "You will receive a JSON object named spec_json with:\n"
  ++ "- clip_config: duration, aspect ratio, global style tags\n"
  ++ "- characters: main character, opponent, and optional extras (e.g., 3-person street brawl)\n"
  ++ "- combo_plan: a brief description of the martial arts combo (DO NOT change the order of moves)\n"
  ++ "- camera_plan: shot and camera intentions (time ranges and priorities)\n"
  ++ "- extra_controls: flags for micro expressions, environment reaction, blood level, safety, etc.\n"
  ++ "- output_prefs: which outputs are requested\n"
  ++ "\n"
  ++ "Your tasks:\n"
  ++ "1) Based on spec_json, write ONE English video prompt for an AI video model.\n"
  ++ "   - Target models like Sora / Veo / Runway.\n"
  ++ "   - Must include scene and world, character appearance and clothing, continuous action, physical reactions,\n"
  ++ "     camera language for each shot, and reasonable environment reaction respecting extra_controls.\n"
  ++ "   - Be concrete and precise. Avoid empty adjectives like \x27awesome, cool, epic\x27.\n"

/-- The content-safety line of `SYSTEM_PROMPT`. -/
def BLOOD_LINE : String :=
  "   - Obey safety_constraints. For example, if blood = \x27none\x27, do NOT describe visible blood or gore.\n"

/-- The lines of `SYSTEM_PROMPT` between the content-safety line and the
separator line. -/
def PROMPT_PART_B : String :=
  "\n"
  ++ "2) Then, write a Chinese timeline storyboard (中文时间轴分镜脚本):\n"
  ++ "   - For each shot in camera_plan, output a block like:\n"
  ++ "     【S01 | 0.0-0.5 秒】\\n画面内容：...\\n人物动作：...\\n被打反应：...\\n机位与运镜：...\\n环境与细节：...\n"
  ++ "   - Cover every shot from camera_plan, you may slightly refine details.\n"
  ++ "   - If extras exist (e.g., third fighter in a street brawl), clarify who is doing what.\n"
  ++ "   - Keep continuity: same people, clothes, and damage state should stay consistent.\n"
  ++ "\n"
  ++ "3) Output format:\n"
  ++ "   - First, output the English video prompt (one or more paragraphs).\n"
  ++ "   - Then a blank line.\n"

/-- The separator line of `SYSTEM_PROMPT`. -/
def SEP_LINE : String := "   - Then output a line: \x27—— 中文时间轴分镜 ——\x27.\n"

/-- The lines of `SYSTEM_PROMPT` after the separator line. -/
def PROMPT_PART_C : String :=
  "   - Then output the Chinese storyboard.\n"
  ++ "   - Do NOT output JSON and do NOT explain your reasoning.\n"

theorem SYSTEM_PROMPT_eq :
    SYSTEM_PROMPT = PROMPT_PART_A ++ BLOOD_LINE ++ PROMPT_PART_B ++ SEP_LINE
      ++ PROMPT_PART_C := by
  simp [SYSTEM_PROMPT, PROMPT_PART_A, BLOOD_LINE, PROMPT_PART_B, SEP_LINE,
    PROMPT_PART_C, String.append_assoc]

set_option maxRecDepth 2000 in
theorem SYSTEM_PROMPT_contains_sep :
    ∃ p q, SYSTEM_PROMPT.data = p ++ SEPARATOR ++ q := by
  have h : ∃ p q, SEP_LINE.data = p ++ SEPARATOR ++ q :=
    contains_of_splitFirst (by decide)
  rw [SYSTEM_PROMPT_eq]
  simp only [data_append]
  exact contains_append_right
    (contains_append_left h
      ((PROMPT_PART_A.data ++ BLOOD_LINE.data) ++ PROMPT_PART_B.data))
    PROMPT_PART_C.data

set_option maxRecDepth 2000 in
theorem SYSTEM_PROMPT_contains_blood_rule :
    ∃ p q, SYSTEM_PROMPT.data = p ++ BLOOD_RULE.data ++ q := by
  have h : ∃ p q, BLOOD_LINE.data = p ++ BLOOD_RULE.data ++ q :=
    contains_of_splitFirst (by decide)
  rw [SYSTEM_PROMPT_eq]
  simp only [data_append]
  exact contains_append_right
    (contains_append_right
      (contains_append_right (contains_append_left h PROMPT_PART_A.data)
        PROMPT_PART_B.data)
      SEP_LINE.data)
    PROMPT_PART_C.data

/-- Claim C8: for every serialized specification string, the compiled prompt
embeds it verbatim as a substring, states the output format including the
literal separator line, and states the content-safety sentence that forbids
visible blood or gore when the blood level is "none" (the sentence is
present in every prompt, in particular when the embedded
`extra_controls.blood` is "none"). -/
theorem callGeminiPrompt_embeds (spec_str : String) :
    (∃ p q, (call_gemini_prompt spec_str).data = p ++ spec_str.data ++ q) ∧
    (∃ p q, (call_gemini_prompt spec_str).data = p ++ SEPARATOR ++ q) ∧
    (∃ p q, (call_gemini_prompt spec_str).data = p ++ BLOOD_RULE.data ++ q) := by
  have hbefore : ∀ sub : List Char,
      (∃ p q, SYSTEM_PROMPT.data = p ++ sub ++ q) →
      ∃ p q, prompt_before_spec.data = p ++ sub ++ q := by
    intro sub h
    have h2 := contains_append_right
      (contains_append_right (contains_append_right h "\n\n".data)
        "下面是本次视频片段的结构化规格说明 spec_json：\n\n".data)
      "```json\n".data
    obtain ⟨p, q, hpq⟩ := h2
    refine ⟨p, q, ?_⟩
    rw [show prompt_before_spec.data =
      SYSTEM_PROMPT.data ++ "\n\n".data
        ++ "下面是本次视频片段的结构化规格说明 spec_json：\n\n".data
        ++ "```json\n".data from rfl]
    exact hpq
  have hfull : (call_gemini_prompt spec_str).data =
      prompt_before_spec.data ++ (spec_str.data ++ prompt_after_spec.data) := by
    rw [call_gemini_prompt_eq]
    simp [data_append, List.append_assoc]
  refine ⟨?_, ?_, ?_⟩
  · exact ⟨prompt_before_spec.data, prompt_after_spec.data,
      by rw [call_gemini_prompt_eq]; rfl⟩
  · rw [hfull]
    exact contains_append_right (hbefore SEPARATOR SYSTEM_PROMPT_contains_sep) _
  · rw [hfull]
    exact contains_append_right
      (hbefore BLOOD_RULE.data SYSTEM_PROMPT_contains_blood_rule) _

/-- Modelled from the spec: the JSON-extraction mode belongs to the
advertisement variant of the pipeline, whose source is not part of this
repository; only the spec describes it.  `Json` is the shape of a parsed
JSON value (numbers restricted to integers, enough for the contract, which
never constrains the number grammar). -/
inductive Json where
  | null : Json
  | bool (b : Bool) : Json
  | num (n : Int) : Json
  | str (s : List Char) : Json
  | arr (elems : List Json) : Json
  | obj (members : List (List Char × Json)) : Json

/-- Whitespace skipping for the JSON reader. -/
def skipWs (s : List Char) : List Char :=
  s.dropWhile fun c => c == ' ' || c == '\n' || c == '\t' || c == '\r'

/-- Reads a JSON string body up to the closing quote, resolving the common
escapes. -/
def parseStrBody : List Char → Option (List Char × List Char)
  | [] => none
  | '"' :: rest => some ([], rest)
  | '\\' :: c :: rest =>
    match parseStrBody rest with
    | some (cs, r) =>
      let e := if c == 'n' then '\n' else if c == 't' then '\t'
        else if c == 'r' then '\r' else c
      some (e :: cs, r)
    | none => none
  | c :: rest =>
    match parseStrBody rest with
    | some (cs, r) => some (c :: cs, r)
    | none => none

def isDigitChar (c : Char) : Bool := 48 ≤ c.toNat && c.toNat ≤ 57

def digitsToNat (ds : List Char) : Nat :=
  ds.foldl (fun acc c => acc * 10 + (c.toNat - 48)) 0

/-- Reads an integer JSON number. -/
def parseNum (s : List Char) : Option (Json × List Char) :=
  match s with
  | '-' :: rest =>
    let ds := rest.takeWhile isDigitChar
    let r := rest.dropWhile isDigitChar
    if ds.isEmpty then none else some (.num (-(digitsToNat ds : Int)), r)
  | _ =>
    let ds := s.takeWhile isDigitChar
    let r := s.dropWhile isDigitChar
    if ds.isEmpty then none else some (.num (digitsToNat ds : Int), r)

/-- Reads the comma-separated values of a non-empty JSON array up to the
closing bracket, with `pv` reading each element. -/
def parseSeq (pv : List Char → Option (Json × List Char)) :
    Nat → List Char → Option (List Json × List Char)
  | 0, _ => none
  | fuel + 1, s =>
    match pv s with
    | some (v, r) =>
      match skipWs r with
      | ',' :: r2 =>
        match parseSeq pv fuel r2 with
        | some (vs, r3) => some (v :: vs, r3)
        | none => none
      | ']' :: r2 => some ([v], r2)
      | _ => none
    | none => none

/-- Reads the members of a non-empty JSON object up to the closing brace,
with `pv` reading each value. -/
def parseMembers (pv : List Char → Option (Json × List Char)) :
    Nat → List Char → Option (List (List Char × Json) × List Char)
  | 0, _ => none
  | fuel + 1, s =>
    match skipWs s with
    | '"' :: rest =>
      match parseStrBody rest with
      | some (key, r) =>
        match skipWs r with
        | ':' :: r2 =>
          match pv r2 with
          | some (v, r3) =>
            match skipWs r3 with
            | ',' :: r4 =>
              match parseMembers pv fuel r4 with
              | some (ms, r5) => some ((key, v) :: ms, r5)
              | none => none
            | '\x7d' :: r4 => some ([(key, v)], r4)
            | _ => none
          | none => none
        | _ => none
      | none => none
    | _ => none

/-- Reads one JSON value; `fuel` bounds the nesting and sequence length. -/
def parseValue : Nat → List Char → Option (Json × List Char)
  | 0, _ => none
  | fuel + 1, s =>
    match skipWs s with
    | [] => none
    | 'n' :: 'u' :: 'l' :: 'l' :: rest => some (.null, rest)
    | 't' :: 'r' :: 'u' :: 'e' :: rest => some (.bool true, rest)
    | 'f' :: 'a' :: 'l' :: 's' :: 'e' :: rest => some (.bool false, rest)
    | '"' :: rest =>
      match parseStrBody rest with
      | some (cs, r) => some (.str cs, r)
      | none => none
    | '[' :: rest =>
      match skipWs rest with
      | ']' :: r => some (.arr [], r)
      | _ =>
        match parseSeq (parseValue fuel) fuel rest with
        | some (vs, r) => some (.arr vs, r)
        | none => none
    | '\x7b' :: rest =>
      match skipWs rest with
      | '\x7d' :: r => some (.obj [], r)
      | _ =>
        match parseMembers (parseValue fuel) fuel rest with
        | some (ms, r) => some (.obj ms, r)
        | none => none
    | c :: rest => if c == '-' || isDigitChar c then parseNum (c :: rest) else none

/-- Modelled from the spec: the strict JSON parse of a whole reply (the
Python `json.loads` of the advertisement variant, absent from this
repository).  Succeeds only when the text is one JSON value surrounded by
whitespace. -/
def parseJson (s : List Char) : Option Json :=
  match parseValue (s.length + 1) s with
  | some (v, rest) => if (skipWs rest).isEmpty then some v else none
  | none => none

/-- Modelled from the spec: the fallback locates the first opening brace and
the last closing brace and slices the text between them inclusive
(`text[first:last+1]`), giving `none` when no such pair exists. -/
def braceSlice (t : List Char) : Option (List Char) :=
  match t.findIdx? (fun c => c == '\x7b') with
  | none => none
  | some i =>
    match t.reverse.findIdx? (fun c => c == '\x7d') with
    | none => none
    | some jr =>
      let j := t.length - 1 - jr
      if i < j then some ((t.take (j + 1)).drop i) else none

/-- Modelled from the spec: JSON-extraction mode — direct parse first, then
the brace-slice fallback, and otherwise a MalformedResponse carrying the
original raw text (the `Except.error` value). -/
def extract_model_json (raw : List Char) : Except (List Char) Json :=
  match parseJson raw with
  | some j => .ok j
  | none =>
    match braceSlice raw with
    | some sub =>
      match parseJson sub with
      | some j => .ok j
      | none => .error raw
    | none => .error raw

theorem braceSlice_decomp {t sub : List Char} (h : braceSlice t = some sub) :
    ∃ pre post, t = pre ++ sub ++ post ∧
      (∀ c ∈ pre, c ≠ '\x7b') ∧
      sub.head? = some '\x7b' ∧ sub.getLast? = some '\x7d' ∧
      (∀ c ∈ post, c ≠ '\x7d') := by
  unfold braceSlice at h
  cases hfi : t.findIdx? (fun c => c == '\x7b') with
  | none => rw [hfi] at h; exact absurd h (by simp)
  | some i =>
  rw [hfi] at h
  cases hfr : t.reverse.findIdx? (fun c => c == '\x7d') with
  | none => rw [hfr] at h; exact absurd h (by simp)
  | some jr =>
  rw [hfr] at h
  simp only [] at h
  by_cases hij : i < t.length - 1 - jr
  · rw [if_pos hij] at h
    have hsub : (t.take (t.length - 1 - jr + 1)).drop i = sub := Option.some.inj h
    obtain ⟨hilen, hichar, himin⟩ := List.findIdx?_eq_some_iff_getElem.mp hfi
    obtain ⟨hjrlen0, hjrchar, hjrmin⟩ := List.findIdx?_eq_some_iff_getElem.mp hfr
    have hjrlen : jr < t.length := by simpa using hjrlen0
    have hti : t[i]? = some '\x7b' := by
      rw [List.getElem?_eq_getElem hilen]
      simpa using hichar
    have htj : t[t.length - 1 - jr]? = some '\x7d' := by
      have hrev : t.reverse[jr]? = t[t.length - 1 - jr]? :=
        List.getElem?_reverse hjrlen
      rw [← hrev, List.getElem?_eq_getElem hjrlen0]
      simpa using hjrchar
    have hmax : ∀ m, t.length - 1 - jr < m → t[m]? ≠ some '\x7d' := by
      intro m hm hcontra
      obtain ⟨hmlen, hmval⟩ := List.getElem?_eq_some_iff.mp hcontra
      have hrlt : t.length - 1 - m < jr := by omega
      have hrev : t.reverse[t.length - 1 - m]? = t[t.length - 1 - (t.length - 1 - m)]? :=
        List.getElem?_reverse (by omega)
      have hm2 : t.length - 1 - (t.length - 1 - m) = m := by omega
      rw [hm2] at hrev
      have hrlen : t.length - 1 - m < t.reverse.length := by
        simpa using Nat.lt_trans hrlt hjrlen0
      have := hjrmin (t.length - 1 - m) hrlt
      rw [List.getElem?_eq_getElem hrlen] at hrev
      have hval : t.reverse[t.length - 1 - m] = '\x7d' := by
        apply Option.some.inj
        rw [hrev, hcontra]
      simp [hval] at this
    set j := t.length - 1 - jr with hj
    have hjlen : j < t.length := by omega
    refine ⟨t.take i, t.drop (j + 1), ?_, ?_, ?_, ?_, ?_⟩
    · have h1 : (t.take (j + 1)).take i = t.take i := by
        rw [List.take_take]
        congr 1
        omega
      have h2 : t.take i ++ sub = t.take (j + 1) := by
        rw [← hsub, ← h1]
        exact List.take_append_drop i (t.take (j + 1))
      calc t = t.take (j + 1) ++ t.drop (j + 1) := (List.take_append_drop _ _).symm
        _ = t.take i ++ sub ++ t.drop (j + 1) := by rw [h2]
    · intro c hc hceq
      obtain ⟨n, hn⟩ := List.mem_iff_getElem?.mp hc
      have hnlt : n < i := by
        have := (List.getElem?_eq_some_iff.mp hn).1
        simp [List.length_take] at this
        omega
      rw [List.getElem?_take_of_lt hnlt] at hn
      obtain ⟨hlt, hval⟩ := List.getElem?_eq_some_iff.mp hn
      have := himin n hnlt
      rw [hval, hceq] at this
      simp at this
    · rw [← hsub, List.head?_eq_getElem?, List.getElem?_drop]
      have : i + 0 = i := by omega
      rw [this, List.getElem?_take_of_lt (by omega : i < j + 1)]
      exact hti
    · have hlen : sub.length = j + 1 - i := by
        rw [← hsub]
        simp [List.length_take]
        omega
      rw [List.getLast?_eq_getElem?, hlen, ← hsub, List.getElem?_drop]
      have : i + (j + 1 - i - 1) = j := by omega
      rw [this, List.getElem?_take_of_lt (by omega : j < j + 1)]
      exact htj
    · intro c hc hceq
      obtain ⟨n, hn⟩ := List.mem_iff_getElem?.mp hc
      rw [List.getElem?_drop] at hn
      have := hmax (j + 1 + n) (by omega)
      rw [hceq] at hn
      exact this hn
  · rw [if_neg hij] at h
    exact absurd h (by simp)

theorem braceSlice_none {t : List Char} (h : braceSlice t = none) :
    ∀ i j : Nat, i < j → t[i]? = some '\x7b' → t[j]? ≠ some '\x7d' := by
  intro i j hij hi hj
  obtain ⟨hilen, hival⟩ := List.getElem?_eq_some_iff.mp hi
  obtain ⟨hjlen, hjval⟩ := List.getElem?_eq_some_iff.mp hj
  unfold braceSlice at h
  cases hfi : t.findIdx? (fun c => c == '\x7b') with
  | none =>
    have := List.findIdx?_eq_none_iff.mp hfi t[i] (List.getElem_mem hilen)
    simp [hival] at this
  | some i0 =>
  rw [hfi] at h
  cases hfr : t.reverse.findIdx? (fun c => c == '\x7d') with
  | none =>
    have hmem : t[j] ∈ t.reverse := by
      simp
    have := List.findIdx?_eq_none_iff.mp hfr t[j] hmem
    simp [hjval] at this
  | some jr =>
  rw [hfr] at h
  simp only [] at h
  by_cases hlt : i0 < t.length - 1 - jr
  · rw [if_pos hlt] at h
    exact absurd h (by simp)
  · obtain ⟨hi0len, _hi0char, hi0min⟩ := List.findIdx?_eq_some_iff_getElem.mp hfi
    obtain ⟨hjrlen0, _hjrchar, hjrmin⟩ := List.findIdx?_eq_some_iff_getElem.mp hfr
    have hjrlen : jr < t.length := by simpa using hjrlen0
    -- the first opening brace is at index `i0 ≤ i`
    have hi0le : i0 ≤ i := by
      by_contra hcon
      have := hi0min i (by omega)
      simp [hival] at this
    -- the last closing brace is at index `t.length - 1 - jr ≥ j`
    have hjle : j ≤ t.length - 1 - jr := by
      by_contra hcon
      have hrlt : t.length - 1 - j < jr := by omega
      have hrlen : t.length - 1 - j < t.reverse.length := by
        simpa using Nat.lt_trans hrlt hjrlen0
      have hrev : t.reverse[t.length - 1 - j]? = t[t.length - 1 - (t.length - 1 - j)]? :=
        List.getElem?_reverse (by omega)
      have hm2 : t.length - 1 - (t.length - 1 - j) = j := by omega
      rw [hm2] at hrev
      have := hjrmin (t.length - 1 - j) hrlt
      rw [List.getElem?_eq_getElem hrlen] at hrev
      have hval : t.reverse[t.length - 1 - j] = '\x7d' := by
        apply Option.some.inj
        rw [hrev, hj]
      simp [hval] at this
    omega

/-- Claim C9 (spec-modelled): JSON-extraction mode — for every raw reply, a
direct parse is attempted first; on failure the substring from the first
opening brace to the last closing brace inclusive is parsed; if that also
fails (or no such brace pair exists), a MalformedResponse carrying the
original raw text is signalled. -/
theorem extractJson_spec (raw : List Char) :
    (∀ j, parseJson raw = some j → extract_model_json raw = .ok j) ∧
    (parseJson raw = none →
      (∀ sub, braceSlice raw = some sub →
        (∀ j, parseJson sub = some j → extract_model_json raw = .ok j) ∧
        (parseJson sub = none → extract_model_json raw = .error raw)) ∧
      (braceSlice raw = none → extract_model_json raw = .error raw)) ∧
    (∀ sub, braceSlice raw = some sub →
      ∃ pre post, raw = pre ++ sub ++ post ∧
        (∀ c ∈ pre, c ≠ '\x7b') ∧
        sub.head? = some '\x7b' ∧ sub.getLast? = some '\x7d' ∧
        (∀ c ∈ post, c ≠ '\x7d')) ∧
    (braceSlice raw = none →
      ∀ i j : Nat, i < j → raw[i]? = some '\x7b' → raw[j]? ≠ some '\x7d') := by
  refine ⟨?_, ?_, fun sub h => braceSlice_decomp h, fun h => braceSlice_none h⟩
  · intro j hj
    unfold extract_model_json
    rw [hj]
  · intro hnone
    constructor
    · intro sub hsub
      constructor
      · intro j hj
        simp only [extract_model_json, hnone, hsub, hj]
      · intro hj
        simp only [extract_model_json, hnone, hsub, hj]
    · intro hsub
      simp only [extract_model_json, hnone, hsub]

theorem extractJson_spec_witness :
    parseJson "here is your json: \x7b\"a\":1\x7d thanks".data = none ∧
    braceSlice "here is your json: \x7b\"a\":1\x7d thanks".data =
      some "\x7b\"a\":1\x7d".data ∧
    parseJson "\x7b\"a\":1\x7d".data = some (.obj [("a".data, .num 1)]) ∧
    extract_model_json "here is your json: \x7b\"a\":1\x7d thanks".data =
      .ok (.obj [("a".data, .num 1)]) := by
  refine ⟨rfl, rfl, rfl, ?_⟩
  exact ((extractJson_spec "here is your json: \x7b\"a\":1\x7d thanks".data).2.1
    rfl).1 "\x7b\"a\":1\x7d".data rfl |>.1 (.obj [("a".data, .num 1)]) rfl

end Storyboard
